import Mathlib

/-!
Shallow embedding of `src/server/server.py` (class `Server` and class
`ModuleAnnouncerThread`): the node lifecycle and membership-announcement
subsystem of a petals serving node.

The embedding is trace-based: each lifecycle routine is a pure function from
an environment (which records the liveness of components and which external
calls fail) to the list of observable events the routine performs, paired
with the error it raises, if any.  Conventions:

* an external call that raises still contributes its event to the trace (the
  call was made) and the error is recorded in the second component;
* Python's `try/finally` around `self.runtime.run()` (source lines 78-81) is
  the only exception handling present in the source; everywhere else an
  exception aborts the rest of the routine, which the embedding mirrors by
  truncating the trace at the failing call;
* `self.checkpoint_saver` is always `None` (source line 49), so the two
  `checkpoint_saver` branches (lines 70-71 and 214-216) are dead code and
  contribute nothing to the traces.
-/

namespace PetalsServer

/-- Errors that the embedded routines can raise.  `configurationError` stands
for the `AssertionError` of the shard-specification assert in `Server.create`
(source line 111); the remaining constructors tag which external call
failed. -/
inductive Err where
  | dhtStartError
  | announcerStartError
  | handlerStartError
  | handlerReadyError
  | engineFault
  | handlerTerminateError
  | handlerJoinError
  | announcerJoinError
  | dhtShutdownError
  | dhtJoinError
  | runtimeShutdownError
  | timeoutError
  | configurationError
  deriving DecidableEq, Repr

/-- Observable events of `Server.run` (source lines 54-81) and
`Server.shutdown` (source lines 197-224). -/
inductive Event where
  | dhtRunInBackground
  | announcerStart
  | handlerStart (i : Nat)
  | handlerReadyWait (i : Nat)
  | runtimeRun
  | runtimeSetReady
  | shutdownCall
  | readyClear
  | handlerTerminate (i : Nat)
  | handlerJoin (i : Nat)
  | announcerStopSet
  | announcerJoin
  | dhtShutdown
  | dhtJoin
  | runtimeShutdown
  deriving DecidableEq, Repr

/-- Environment of one connection handler during `Server.run`: whether
`process.is_alive()` is true before the loop reaches it, and whether its
`start()` call or its `ready.result()` wait raises. -/
structure RunHandler where
  alive : Bool
  startFails : Bool
  readyFails : Bool
  deriving DecidableEq, Repr

/-- Environment of one execution of `Server.run`: the result of
`self.dht.is_alive()` (line 64), whether `self.module_backends` is non-empty
(line 67), the connection-handler environments (lines 73-76), and which of
the external calls raise. -/
structure RunEnv where
  dhtAlive : Bool
  hasModuleBackends : Bool
  handlers : List RunHandler
  dhtStartFails : Bool
  announcerStartFails : Bool
  runtimeRunFails : Bool
  deriving DecidableEq, Repr

/-- Sequencing of two phases with no exception handling: if the first phase
raises, the second never runs (its events are absent from the trace). -/
def seqPhase (p q : List Event × Option Err) : List Event × Option Err :=
  match p.2 with
  | some e => (p.1, some e)
  | none => (p.1 ++ q.1, q.2)

/-- Python `try: p finally: q` where `q` itself cannot raise in the
embedding: `q`'s events always happen and `p`'s error then propagates
(source lines 78-81). -/
def finallyPhase (p q : List Event × Option Err) : List Event × Option Err :=
  (p.1 ++ q.1, p.2)

/-- Source lines 64-65: `if not self.dht.is_alive(): self.dht.run_in_background(await_ready=True)`. -/
def dhtPhase (env : RunEnv) : List Event × Option Err :=
  if env.dhtAlive then ([], none)
  else ([Event.dhtRunInBackground],
        if env.dhtStartFails then some Err.dhtStartError else none)

/-- Source lines 67-68: `if self.module_backends: self.dht_handler_thread.start()`. -/
def announcerPhase (env : RunEnv) : List Event × Option Err :=
  if env.hasModuleBackends then
    ([Event.announcerStart],
     if env.announcerStartFails then some Err.announcerStartError else none)
  else ([], none)

/-- Source lines 73-76: the connection-handler loop of `Server.run`, with `i`
the index of the first remaining handler:

```text
for process in self.conn_handlers:
    if not process.is_alive():
        process.start()
    process.ready.result()
```

There is no exception handling, so a raising `start()` or `ready.result()`
truncates the loop. -/
def connHandlersPhase : List RunHandler → Nat → List Event × Option Err
  | [], _ => ([], none)
  | h :: rest, i =>
    if h.alive then
      if h.readyFails then ([Event.handlerReadyWait i], some Err.handlerReadyError)
      else ([Event.handlerReadyWait i] ++ (connHandlersPhase rest (i + 1)).1,
            (connHandlersPhase rest (i + 1)).2)
    else
      if h.startFails then ([Event.handlerStart i], some Err.handlerStartError)
      else if h.readyFails then
        ([Event.handlerStart i, Event.handlerReadyWait i], some Err.handlerReadyError)
      else ([Event.handlerStart i, Event.handlerReadyWait i] ++ (connHandlersPhase rest (i + 1)).1,
            (connHandlersPhase rest (i + 1)).2)

/-- Source line 79: `self.runtime.run()`.  The Runtime is external; per the
spec it exposes a readiness signal that it sets from inside `run()` once it
can process batches (modelled from the spec: the Execution Engine "exposes a
readiness signal and a blocking `run()` call"), so a non-faulting `run()`
sets readiness and a faulting one raises `EngineFault`. -/
def runtimePhase (fails : Bool) : List Event × Option Err :=
  if fails then ([Event.runtimeRun], some Err.engineFault)
  else ([Event.runtimeRun, Event.runtimeSetReady], none)

/-- `Server.run` (source lines 54-81): dht liveness check and background
start, announcer-thread start, connection-handler loop, then
`try: self.runtime.run() finally: self.shutdown()`.  Only the runtime call
is inside the `try`; an exception in any earlier step propagates with no
`finally`. -/
def Server.run (env : RunEnv) : List Event × Option Err :=
  seqPhase (dhtPhase env)
    (seqPhase (announcerPhase env)
      (seqPhase (connHandlersPhase env.handlers 0)
        (finallyPhase (runtimePhase env.runtimeRunFails) ([Event.shutdownCall], none))))

/-- A handler environment under which the handler loop body does not raise at
this handler. -/
def runHandlerOk (h : RunHandler) : Bool :=
  !(!h.alive && h.startFails) && !h.readyFails

/-- Startup steps 1-3 of `Server.run` complete without raising: the dht
background start, the announcer start, and every handler start / readiness
wait succeed. -/
def startupOk (env : RunEnv) : Bool :=
  (env.dhtAlive || !env.dhtStartFails) &&
    (!env.hasModuleBackends || !env.announcerStartFails) &&
    env.handlers.all runHandlerOk

/-- Environment of one connection handler during `Server.shutdown`: whether
its `terminate()` or `join()` call raises (source lines 205-207). -/
structure ShutdownHandler where
  terminateFails : Bool
  joinFails : Bool
  deriving DecidableEq, Repr

/-- Environment of one execution of `Server.shutdown`: the handler
environments and which of the teardown calls raise. -/
structure ShutdownEnv where
  handlers : List ShutdownHandler
  hasModuleBackends : Bool
  announcerJoinFails : Bool
  dhtShutdownFails : Bool
  dhtJoinFails : Bool
  runtimeShutdownFails : Bool
  deriving DecidableEq, Repr

/-- Source lines 205-207: the handler-teardown loop of `Server.shutdown`:

```text
for process in self.conn_handlers:
    process.terminate()
    process.join()
```

No exception handling: a raising call truncates the loop. -/
def shutdownHandlersPhase : List ShutdownHandler → Nat → List Event × Option Err
  | [], _ => ([], none)
  | h :: rest, i =>
    if h.terminateFails then ([Event.handlerTerminate i], some Err.handlerTerminateError)
    else if h.joinFails then
      ([Event.handlerTerminate i, Event.handlerJoin i], some Err.handlerJoinError)
    else ([Event.handlerTerminate i, Event.handlerJoin i] ++ (shutdownHandlersPhase rest (i + 1)).1,
          (shutdownHandlersPhase rest (i + 1)).2)

/-- Source lines 210-212: `if self.module_backends: self.dht_handler_thread.stop.set(); self.dht_handler_thread.join()`. -/
def announcerStopEvents (hasModuleBackends : Bool) : List Event :=
  if hasModuleBackends then [Event.announcerStopSet, Event.announcerJoin] else []

/-- The teardown steps of `Server.shutdown` after the handler loop (source
lines 210-223): announcer stop/join, dht shutdown/join, runtime shutdown,
each step able to raise, with no exception handling. -/
def shutdownTail (env : ShutdownEnv) : List Event × Option Err :=
  if env.hasModuleBackends && env.announcerJoinFails then
    (announcerStopEvents env.hasModuleBackends, some Err.announcerJoinError)
  else if env.dhtShutdownFails then
    (announcerStopEvents env.hasModuleBackends ++ [Event.dhtShutdown], some Err.dhtShutdownError)
  else if env.dhtJoinFails then
    (announcerStopEvents env.hasModuleBackends ++ [Event.dhtShutdown, Event.dhtJoin],
     some Err.dhtJoinError)
  else if env.runtimeShutdownFails then
    (announcerStopEvents env.hasModuleBackends ++
      [Event.dhtShutdown, Event.dhtJoin, Event.runtimeShutdown],
     some Err.runtimeShutdownError)
  else
    (announcerStopEvents env.hasModuleBackends ++
      [Event.dhtShutdown, Event.dhtJoin, Event.runtimeShutdown],
     none)

/-- The part of `Server.shutdown` after `self.ready.clear()` (source lines
205-223): the handler-teardown loop, then the remaining teardown steps; a
raising call in the loop aborts everything after it. -/
def shutdownRest (env : ShutdownEnv) : List Event × Option Err :=
  seqPhase (shutdownHandlersPhase env.handlers 0) (shutdownTail env)

/-- `Server.shutdown` (source lines 197-224): `self.ready.clear()` first
(line 203, unconditional), then the teardown sequence. -/
def Server.shutdown (env : ShutdownEnv) : List Event × Option Err :=
  (Event.readyClear :: (shutdownRest env).1, (shutdownRest env).2)

/-- The error raised by the first failing call of `Server.shutdown`'s
handler-teardown loop, if any. -/
def handlersFirstErr : List ShutdownHandler → Option Err
  | [] => none
  | h :: rest =>
    if h.terminateFails then some Err.handlerTerminateError
    else if h.joinFails then some Err.handlerJoinError
    else handlersFirstErr rest

/-- The error raised by the first failing step of `Server.shutdown`, if
any. -/
def firstShutdownErr (env : ShutdownEnv) : Option Err :=
  match handlersFirstErr env.handlers with
  | some e => some e
  | none =>
    if env.hasModuleBackends && env.announcerJoinFails then some Err.announcerJoinError
    else if env.dhtShutdownFails then some Err.dhtShutdownError
    else if env.dhtJoinFails then some Err.dhtJoinError
    else if env.runtimeShutdownFails then some Err.runtimeShutdownError
    else none

/-- Effect of one event on the runtime readiness flag.  The flag is the
`mp.Event` owned by the Runtime: set from inside `runtime.run()`, cleared by
`self.ready.clear()` (source line 203). -/
def readyStep (b : Bool) (e : Event) : Bool :=
  match e with
  | Event.runtimeSetReady => true
  | Event.readyClear => false
  | _ => b

/-- The runtime readiness flag after a trace of events.  Modelled from the
spec for the initial value: a fresh `mp.Event` is unset, so readiness is
false before anything runs. -/
def runtimeReadyAfter (t : List Event) : Bool :=
  t.foldl readyStep false

/-- `Server.ready` (source lines 184-195): `return self.runtime.ready` - the
node's readiness signal is exactly the Runtime's readiness event. -/
def Server.ready (t : List Event) : Bool :=
  runtimeReadyAfter t

/-- Observable events of `ModuleAnnouncerThread.run` (source lines 242-245). -/
inductive AEvent where
  | putAttempt
  | stopWaitTrue
  | stopWaitFalse
  deriving DecidableEq, Repr

/-- How an execution of `ModuleAnnouncerThread.run` ends within the observed
window: still looping, or exited because `stop` was observed set. -/
inductive AnnOutcome where
  | running
  | stopped
  deriving DecidableEq, Repr

/-- Environment of one iteration of the announcer loop: whether
`self.stop.wait(self.update_period)` observes the stop signal, and the
result of this iteration's registry put. -/
structure AnnIter where
  stopSet : Bool
  putOk : Bool
  deriving DecidableEq, Repr

/-- `declare_active_modules(self.dht, self.module_backends.keys(), ...)`
(source lines 243 and 245).  The function itself lives outside `src/`;
modelled from the spec: the registry client is consumed only through
`put(keys, expiresAt) -> Result<void, RegistryError>`, so one announcement
attempt is a put whose success or failure is a returned result, not a raised
exception.  `ModuleAnnouncerThread.run` discards the returned value. -/
def declareActiveModules (putOk : Bool) : AEvent × Bool :=
  (AEvent.putAttempt, putOk)

/-- Source lines 244-245: `while not self.stop.wait(self.update_period):
declare_active_modules(...)`.  The environment list supplies one entry per
executed wait; an empty remainder means the loop is still running when
observation ends. -/
def announcerLoop : List AnnIter → List AEvent × AnnOutcome
  | [] => ([], AnnOutcome.running)
  | it :: rest =>
    if it.stopSet then ([AEvent.stopWaitTrue], AnnOutcome.stopped)
    else (AEvent.stopWaitFalse :: (declareActiveModules it.putOk).1 :: (announcerLoop rest).1,
          (announcerLoop rest).2)

/-- `ModuleAnnouncerThread.run` (source lines 242-245): one announcement as
the first action of the thread body, then the renewal loop. -/
def ModuleAnnouncerThread.run (firstPutOk : Bool) (iters : List AnnIter) :
    List AEvent × AnnOutcome :=
  ((declareActiveModules firstPutOk).1 :: (announcerLoop iters).1, (announcerLoop iters).2)

/-- Number of announcement attempts in an announcer trace. -/
def putAttempts : List AEvent → Nat
  | [] => 0
  | AEvent.putAttempt :: t => putAttempts t + 1
  | _ :: t => putAttempts t

/-- `ModuleAnnouncerThread.__init__` (source lines 230-240): the effective
lease expiration.  `MAX_DHT_TIME_DISCREPANCY_SECONDS` is an external hivemind
constant, passed here as the parameter `maxTimeDiscrepancy`.  Durations are
Python floats, embedded as rationals. -/
def ModuleAnnouncerThread.expiration (update_period : ℚ) (expiration : Option ℚ)
    (maxTimeDiscrepancy : ℚ) : ℚ :=
  match expiration with
  | none => max (2 * update_period) maxTimeDiscrepancy
  | some e => e

/-- Source line 130 / line 133: the designated block-index range,
`range(first_block_index, last_block_index)` or `range(num_blocks)`. -/
def intRange (a b : Int) : List Int :=
  (List.range (b - a).toNat).map (fun (k : Nat) => a + (k : Int))

/-- The shard-specification validation and block-range computation of
`Server.create` (source lines 111 and 123-133).  `block_indices` is the
already-parsed `first:last` pair.  Line 111 asserts
`(block_indices is None) != (num_blocks is None)`, raising when both or
neither form is supplied; `configurationError` stands for that
`AssertionError`. -/
def createBlockIndices (num_blocks : Option Int) (block_indices : Option (Int × Int)) :
    Except Err (List Int) :=
  if block_indices.isNone = num_blocks.isNone then Except.error Err.configurationError
  else
    match block_indices with
    | some p => Except.ok (intRange p.1 p.2)
    | none =>
      match num_blocks with
      | some n => Except.ok (intRange 0 n)
      | none => Except.error Err.configurationError

/-- Component state immediately after `Server.create` returns (source lines
85-173 together with `Server.__init__`, lines 28-52). -/
structure CreateResult where
  hostedBlocks : List Int
  dhtStarted : Bool
  numHandlers : Nat
  handlersStarted : Bool
  runtimeStarted : Bool
  announcerStarted : Bool
  serverStarted : Bool
  deriving DecidableEq, Repr

/-- `Server.create` (source lines 85-173): validates the shard specification,
constructs the DHT with `start=True` (line 112), loads the blocks, defaults
the handler count to `len(blocks) * 4` (line 162), and constructs the
`Server` via `__init__` (lines 28-52), which builds the connection handlers,
the Runtime and the announcer thread without starting them; if `start` is
set, `__init__` then calls `run_in_background(await_ready=True)` (lines
51-52), which launches the server thread and blocks on `ready.wait` with no
timeout (line 181) until the Runtime's readiness fires inside
`runtime.run()` (line 79) - a point `run()` reaches only after starting the
announcer thread when the hosted-block set is non-empty (lines 67-68) and
starting every connection handler and awaiting its readiness (lines 73-76).
Hence on return with `start=true` the handlers and the Runtime are running,
and the announcer too iff the hosted-block set is non-empty; with
`start=false` none of them has been started.  The DHT is running in either
case. -/
def Server.create (num_blocks : Option Int) (block_indices : Option (Int × Int))
    (num_handlers : Option Nat) (start : Bool) : Except Err CreateResult :=
  match createBlockIndices num_blocks block_indices with
  | Except.error e => Except.error e
  | Except.ok blocks =>
    Except.ok
      { hostedBlocks := blocks
        dhtStarted := true
        numHandlers := num_handlers.getD (blocks.length * 4)
        handlersStarted := start
        runtimeStarted := start
        announcerStarted := start && !blocks.isEmpty
        serverStarted := start }

/-- The slot indices whose readiness futures are awaited, in trace order. -/
def readyWaitIndices (t : List Event) : List Nat :=
  t.filterMap fun e =>
    match e with
    | Event.handlerReadyWait k => some k
    | _ => none

/-- Number of handlers whose readiness future gets awaited by the
connection-handler loop before it ends or raises. -/
def readyWaitCount : List RunHandler → Nat
  | [] => 0
  | h :: rest =>
    if !h.alive && h.startFails then 0
    else if h.readyFails then 1
    else readyWaitCount rest + 1

/-- Observable events of `Server.run_in_background` (source lines 175-182). -/
inductive BEvent where
  | threadStart
  | readyWait
  deriving DecidableEq, Repr

/-- `Server.run_in_background` (source lines 175-182): `self.start()`, then,
if `await_ready`, `self.ready.wait(timeout=timeout)`, raising `TimeoutError`
when the wait returns false.  `readyWithinTimeout` is whether the readiness
event fires within the caller's timeout. -/
def Server.runInBackground (await_ready : Bool) (readyWithinTimeout : Bool) :
    List BEvent × Option Err :=
  if await_ready then
    if readyWithinTimeout then ([BEvent.threadStart, BEvent.readyWait], none)
    else ([BEvent.threadStart, BEvent.readyWait], some Err.timeoutError)
  else ([BEvent.threadStart], none)

/-- Events of the two-thread scheduling model around
`self.dht_handler_thread.start()` (source line 68). -/
inductive TEvent where
  | announcerThreadStart
  | announce
  | periodWait
  | handlerPhaseBegin
  deriving DecidableEq, Repr

/-- Joint state of the orchestrator thread (executing `Server.run`) and the
announcer thread around source line 68.  `threading.Thread.start()` only
spawns the new thread; which thread runs next is the scheduler's choice. -/
structure SysState where
  orchPC : Nat
  annSpawned : Bool
  annPC : Nat
  deriving DecidableEq, Repr

/-- Initial state: announcer thread not yet spawned, orchestrator about to
execute `self.dht_handler_thread.start()`. -/
def sysInit : SysState :=
  { orchPC := 0, annSpawned := false, annPC := 0 }

/-- One step of the orchestrator thread: first `dht_handler_thread.start()`
(spawns the announcer thread and returns), then the beginning of the
connection-handler phase (source line 73). -/
def orchStep (s : SysState) : SysState × List TEvent :=
  match s.orchPC with
  | 0 => ({ s with orchPC := 1, annSpawned := true }, [TEvent.announcerThreadStart])
  | 1 => ({ s with orchPC := 2 }, [TEvent.handlerPhaseBegin])
  | _ => (s, [])

/-- One step of the announcer thread, runnable only once spawned: its body
alternates the initial/renewal announcement and the period wait
(source lines 242-245). -/
def annStep (s : SysState) : SysState × List TEvent :=
  if s.annSpawned then
    if s.annPC % 2 = 0 then ({ s with annPC := s.annPC + 1 }, [TEvent.announce])
    else ({ s with annPC := s.annPC + 1 }, [TEvent.periodWait])
  else (s, [])

/-- Run the two-thread system under a schedule: `true` schedules the
orchestrator, `false` the announcer. -/
def sysRun : List Bool → SysState → List TEvent
  | [], _ => []
  | turn :: rest, s =>
    ((if turn then orchStep s else annStep s).2) ++
      sysRun rest (if turn then orchStep s else annStep s).1

theorem seqPhase_none {p q : List Event × Option Err} (h : p.2 = none) :
    seqPhase p q = (p.1 ++ q.1, q.2) := by
  unfold seqPhase
  rw [h]

theorem seqPhase_some {p q : List Event × Option Err} {e : Err} (h : p.2 = some e) :
    seqPhase p q = (p.1, some e) := by
  unfold seqPhase
  rw [h]

theorem mem_dhtPhase {env : RunEnv} {e : Event} (h : e ∈ (dhtPhase env).1) :
    e = Event.dhtRunInBackground := by
  unfold dhtPhase at h
  cases hda : env.dhtAlive <;> rw [hda] at h <;> simp at h
  exact h

theorem mem_announcerPhase {env : RunEnv} {e : Event} (h : e ∈ (announcerPhase env).1) :
    e = Event.announcerStart := by
  unfold announcerPhase at h
  cases hmb : env.hasModuleBackends <;> rw [hmb] at h <;> simp at h
  exact h

theorem mem_runtimePhase {b : Bool} {e : Event} (h : e ∈ (runtimePhase b).1) :
    e = Event.runtimeRun ∨ e = Event.runtimeSetReady := by
  unfold runtimePhase at h
  cases b <;> simp at h <;> tauto

theorem mem_connHandlersPhase_strong (hs : List RunHandler) :
    ∀ i e, e ∈ (connHandlersPhase hs i).1 →
      (∃ j hh, hs[j]? = some hh ∧ hh.alive = false ∧ e = Event.handlerStart (i + j)) ∨
        ∃ j, j < hs.length ∧ e = Event.handlerReadyWait (i + j) := by
  induction hs with
  | nil =>
    intro i e he
    simp [connHandlersPhase] at he
  | cons hd tl ih =>
    intro i e he
    by_cases hal : hd.alive = true
    · by_cases hrf : hd.readyFails = true
      · simp [connHandlersPhase, hal, hrf] at he
        exact Or.inr ⟨0, by simp, by simpa using he⟩
      · simp [connHandlersPhase, hal, hrf] at he
        rcases he with he | he
        · exact Or.inr ⟨0, by simp, by simpa using he⟩
        · rcases ih (i + 1) e he with ⟨j, hh, hj, ha2, hval⟩ | ⟨j, hlt, hval⟩
          · refine Or.inl ⟨j + 1, hh, by simpa using hj, ha2, ?_⟩
            rw [hval]
            congr 1
            omega
          · refine Or.inr ⟨j + 1, by simpa using Nat.succ_lt_succ hlt, ?_⟩
            rw [hval]
            congr 1
            omega
    · have hal' : hd.alive = false := by simpa using hal
      by_cases hsf : hd.startFails = true
      · simp [connHandlersPhase, hal', hsf] at he
        exact Or.inl ⟨0, hd, by simp, hal', by simpa using he⟩
      · by_cases hrf : hd.readyFails = true
        · simp [connHandlersPhase, hal', hsf, hrf] at he
          rcases he with he | he
          · exact Or.inl ⟨0, hd, by simp, hal', by simpa using he⟩
          · exact Or.inr ⟨0, by simp, by simpa using he⟩
        · simp [connHandlersPhase, hal', hsf, hrf] at he
          rcases he with he | he | he
          · exact Or.inl ⟨0, hd, by simp, hal', by simpa using he⟩
          · exact Or.inr ⟨0, by simp, by simpa using he⟩
          · rcases ih (i + 1) e he with ⟨j, hh, hj, ha2, hval⟩ | ⟨j, hlt, hval⟩
            · refine Or.inl ⟨j + 1, hh, by simpa using hj, ha2, ?_⟩
              rw [hval]
              congr 1
              omega
            · refine Or.inr ⟨j + 1, by simpa using Nat.succ_lt_succ hlt, ?_⟩
              rw [hval]
              congr 1
              omega

theorem shutdownCall_not_mem_connHandlersPhase (hs : List RunHandler) (i : Nat) :
    Event.shutdownCall ∉ (connHandlersPhase hs i).1 := by
  intro h
  rcases mem_connHandlersPhase_strong hs i _ h with ⟨j, hh, _, _, hval⟩ | ⟨j, _, hval⟩ <;>
    simp at hval

theorem setReady_not_mem_connHandlersPhase (hs : List RunHandler) (i : Nat) :
    Event.runtimeSetReady ∉ (connHandlersPhase hs i).1 := by
  intro h
  rcases mem_connHandlersPhase_strong hs i _ h with ⟨j, hh, _, _, hval⟩ | ⟨j, _, hval⟩ <;>
    simp at hval

theorem connHandlersPhase_snd_none_iff (hs : List RunHandler) :
    ∀ i, ((connHandlersPhase hs i).2 = none ↔ hs.all runHandlerOk = true) := by
  induction hs with
  | nil => intro i; simp [connHandlersPhase]
  | cons hd tl ih =>
    intro i
    obtain ⟨al, sf, rf⟩ := hd
    cases al <;> cases sf <;> cases rf <;>
      simp [connHandlersPhase, runHandlerOk, List.all_cons, ih (i + 1)]

theorem connHandlersPhase_snd_none (hs : List RunHandler)
    (h : hs.all runHandlerOk = true) (i : Nat) : (connHandlersPhase hs i).2 = none :=
  (connHandlersPhase_snd_none_iff hs i).2 h

theorem connHandlersPhase_snd_ne_none (hs : List RunHandler)
    (h : hs.all runHandlerOk = false) (i : Nat) : (connHandlersPhase hs i).2 ≠ none := by
  intro hn
  rw [connHandlersPhase_snd_none_iff hs i, h] at hn
  exact Bool.false_ne_true hn

theorem dhtPhase_snd_none {env : RunEnv} (h : (env.dhtAlive || !env.dhtStartFails) = true) :
    (dhtPhase env).2 = none := by
  unfold dhtPhase
  cases hda : env.dhtAlive <;> rw [hda] at h <;> simp_all

theorem announcerPhase_snd_none {env : RunEnv}
    (h : (!env.hasModuleBackends || !env.announcerStartFails) = true) :
    (announcerPhase env).2 = none := by
  unfold announcerPhase
  cases hmb : env.hasModuleBackends <;> rw [hmb] at h <;> simp_all

theorem run_trace_ok (env : RunEnv) (h : startupOk env = true) :
    Server.run env =
      ((dhtPhase env).1 ++ ((announcerPhase env).1 ++ ((connHandlersPhase env.handlers 0).1 ++
          ((runtimePhase env.runtimeRunFails).1 ++ [Event.shutdownCall]))),
        (runtimePhase env.runtimeRunFails).2) := by
  unfold startupOk at h
  simp only [Bool.and_eq_true] at h
  obtain ⟨⟨h1, h2⟩, h3⟩ := h
  have hd : (dhtPhase env).2 = none := dhtPhase_snd_none h1
  have ha : (announcerPhase env).2 = none := announcerPhase_snd_none h2
  have hc : (connHandlersPhase env.handlers 0).2 = none :=
    connHandlersPhase_snd_none env.handlers h3 0
  unfold Server.run
  rw [seqPhase_none hd, seqPhase_none ha, seqPhase_none hc]
  rfl

theorem run_trace_bad_mem (env : RunEnv) (h : startupOk env = false) :
    ∀ e ∈ (Server.run env).1,
      e = Event.dhtRunInBackground ∨ e = Event.announcerStart ∨
        (∃ k, e = Event.handlerStart k) ∨ ∃ k, e = Event.handlerReadyWait k := by
  by_cases h1 : (env.dhtAlive || !env.dhtStartFails) = true
  · by_cases h2 : (!env.hasModuleBackends || !env.announcerStartFails) = true
    · have h3 : env.handlers.all runHandlerOk = false := by
        unfold startupOk at h
        rw [h1, h2] at h
        simpa using h
      have hd : (dhtPhase env).2 = none := dhtPhase_snd_none h1
      have ha : (announcerPhase env).2 = none := announcerPhase_snd_none h2
      obtain ⟨e0, he0⟩ :=
        Option.ne_none_iff_exists'.1 (connHandlersPhase_snd_ne_none env.handlers h3 0)
      intro e he
      unfold Server.run at he
      rw [seqPhase_none hd, seqPhase_none ha, seqPhase_some he0] at he
      simp only [List.mem_append] at he
      rcases he with he | he | he
      · exact Or.inl (mem_dhtPhase he)
      · exact Or.inr (Or.inl (mem_announcerPhase he))
      · rcases mem_connHandlersPhase_strong _ _ _ he with ⟨j, hh, _, _, hval⟩ | ⟨j, _, hval⟩
        · exact Or.inr (Or.inr (Or.inl ⟨0 + j, hval⟩))
        · exact Or.inr (Or.inr (Or.inr ⟨0 + j, hval⟩))
    · have hmb : env.hasModuleBackends = true ∧ env.announcerStartFails = true := by
        constructor <;> cases hx : env.hasModuleBackends <;> cases hy : env.announcerStartFails <;>
          rw [hx, hy] at h2 <;> simp_all
      have hd : (dhtPhase env).2 = none := dhtPhase_snd_none h1
      have ha : (announcerPhase env).2 = some Err.announcerStartError := by
        unfold announcerPhase
        rw [hmb.1, hmb.2]
        simp
      intro e he
      unfold Server.run at he
      rw [seqPhase_none hd, seqPhase_some ha] at he
      simp only [List.mem_append] at he
      rcases he with he | he
      · exact Or.inl (mem_dhtPhase he)
      · exact Or.inr (Or.inl (mem_announcerPhase he))
  · have hda : env.dhtAlive = false ∧ env.dhtStartFails = true := by
      constructor <;> cases hx : env.dhtAlive <;> cases hy : env.dhtStartFails <;>
        rw [hx, hy] at h1 <;> simp_all
    have hd : (dhtPhase env).2 = some Err.dhtStartError := by
      unfold dhtPhase
      rw [hda.1, hda.2]
      simp
    intro e he
    unfold Server.run at he
    rw [seqPhase_some hd] at he
    exact Or.inl (mem_dhtPhase he)

theorem readyStep_false {e : Event} (h : e ≠ Event.runtimeSetReady) :
    readyStep false e = false := by
  cases e <;> first | rfl | exact absurd rfl h

theorem runtimeReadyAfter_eq_false :
    ∀ t : List Event, Event.runtimeSetReady ∉ t → runtimeReadyAfter t = false := by
  intro t
  induction t with
  | nil => intro _; rfl
  | cons e t ih =>
    intro h
    have he : e ≠ Event.runtimeSetReady := by
      intro hh
      exact h (by simp [hh])
    have ht : Event.runtimeSetReady ∉ t := fun hm => h (List.mem_cons_of_mem _ hm)
    unfold runtimeReadyAfter at *
    rw [List.foldl_cons, readyStep_false he]
    exact ih ht

theorem shutdownHandlersPhase_snd (hs : List ShutdownHandler) :
    ∀ i, (shutdownHandlersPhase hs i).2 = handlersFirstErr hs := by
  induction hs with
  | nil => intro i; rfl
  | cons hd tl ih =>
    intro i
    obtain ⟨tf, jf⟩ := hd
    cases tf <;> cases jf <;> simp_all [shutdownHandlersPhase, handlersFirstErr]

theorem mem_shutdownHandlersPhase (hs : List ShutdownHandler) :
    ∀ i e, e ∈ (shutdownHandlersPhase hs i).1 →
      (∃ k, e = Event.handlerTerminate k) ∨ ∃ k, e = Event.handlerJoin k := by
  induction hs with
  | nil =>
    intro i e he
    simp [shutdownHandlersPhase] at he
  | cons hd tl ih =>
    intro i e he
    by_cases htf : hd.terminateFails = true
    · simp [shutdownHandlersPhase, htf] at he
      exact Or.inl ⟨i, he⟩
    · by_cases hjf : hd.joinFails = true
      · simp [shutdownHandlersPhase, htf, hjf] at he
        rcases he with he | he
        · exact Or.inl ⟨i, he⟩
        · exact Or.inr ⟨i, he⟩
      · simp [shutdownHandlersPhase, htf, hjf] at he
        rcases he with he | he | he
        · exact Or.inl ⟨i, he⟩
        · exact Or.inr ⟨i, he⟩
        · exact ih (i + 1) e he

theorem handlersFirstErr_eq_none_iff (hs : List ShutdownHandler) :
    handlersFirstErr hs = none ↔
      hs.all (fun hh => !hh.terminateFails && !hh.joinFails) = true := by
  induction hs with
  | nil => simp [handlersFirstErr]
  | cons hd tl ih =>
    obtain ⟨tf, jf⟩ := hd
    cases tf <;> cases jf <;> simp [handlersFirstErr, ih]

theorem handlersFirstErr_ne_none (hs : List ShutdownHandler)
    (h : hs.any (fun hh => hh.terminateFails || hh.joinFails) = true) :
    handlersFirstErr hs ≠ none := by
  intro hn
  rw [handlersFirstErr_eq_none_iff] at hn
  rw [List.any_eq_true] at h
  obtain ⟨x, hx, hpx⟩ := h
  have hall := List.all_eq_true.1 hn x hx
  cases htf : x.terminateFails <;> cases hjf : x.joinFails <;> simp_all

theorem intRange_nodup (a b : Int) : (intRange a b).Nodup := by
  have hinj : Function.Injective (fun k : Nat => a + (k : Int)) := by
    intro x y hxy
    simpa using hxy
  exact (List.nodup_range _).map hinj

theorem range'_succ_eq (s n : Nat) : List.range' s (n + 1) = s :: List.range' (s + 1) n := rfl

theorem readyWaitIndices_nil : readyWaitIndices [] = [] := rfl

theorem readyWaitIndices_cons_start (i : Nat) (t : List Event) :
    readyWaitIndices (Event.handlerStart i :: t) = readyWaitIndices t := rfl

theorem readyWaitIndices_cons_wait (i : Nat) (t : List Event) :
    readyWaitIndices (Event.handlerReadyWait i :: t) = i :: readyWaitIndices t := rfl

theorem readyWaitIndices_append (t1 t2 : List Event) :
    readyWaitIndices (t1 ++ t2) = readyWaitIndices t1 ++ readyWaitIndices t2 := by
  simp [readyWaitIndices, List.filterMap_append]

theorem readyWaitIndices_connHandlersPhase (hs : List RunHandler) :
    ∀ i, readyWaitIndices (connHandlersPhase hs i).1 = List.range' i (readyWaitCount hs) := by
  induction hs with
  | nil => intro i; rfl
  | cons hd tl ih =>
    intro i
    obtain ⟨al, sf, rf⟩ := hd
    cases al <;> cases sf <;> cases rf <;>
      simp [connHandlersPhase, readyWaitCount, readyWaitIndices_append,
        readyWaitIndices_cons_start, readyWaitIndices_cons_wait, readyWaitIndices_nil,
        range'_succ_eq, ih (i + 1)]

/-- `Server.shutdown` succeeds at every step: no handler terminate/join
raises and none of the announcer-join, dht-shutdown, dht-join or
runtime-shutdown calls raises. -/
def shutdownAllOk (env : ShutdownEnv) : Bool :=
  env.handlers.all (fun hh => !hh.terminateFails && !hh.joinFails) &&
    !(env.hasModuleBackends && env.announcerJoinFails) && !env.dhtShutdownFails &&
    !env.dhtJoinFails && !env.runtimeShutdownFails

/-- C1 (amended): `Server.run` invokes `shutdown()` exactly when startup
steps 1-3 complete without raising.  When they do, `shutdown()` is invoked
both after a normal return of `runtime.run()` and when `runtime.run()`
raises (the engine fault still propagating afterwards); when a startup step
raises, `run()` terminates by that exception without invoking `shutdown()`,
because the `try/finally` of source lines 78-81 wraps only the
`runtime.run()` call. -/
theorem run_shutdown_invocation (env env' : RunEnv)
    (hok : startupOk env = true) (hbad : startupOk env' = false) :
    (Event.shutdownCall ∈ (Server.run env).1 ∧
      (Server.run env).2 = (if env.runtimeRunFails then some Err.engineFault else none)) ∧
    Event.shutdownCall ∉ (Server.run env').1 := by
  refine ⟨⟨?_, ?_⟩, ?_⟩
  · rw [run_trace_ok env hok]
    simp [List.mem_append]
  · rw [run_trace_ok env hok]
    cases hrr : env.runtimeRunFails <;> simp [runtimePhase, hrr]
  · intro hmem
    rcases run_trace_bad_mem env' hbad _ hmem with h' | h' | ⟨k, h'⟩ | ⟨k, h'⟩ <;> simp at h'

/-- Witness for C1: a concrete environment whose startup succeeds and whose
engine main loop faults (shutdown invoked, fault re-raised), and a concrete
environment whose announcer start raises (shutdown not invoked). -/
theorem run_shutdown_invocation_witness :
    startupOk { dhtAlive := true, hasModuleBackends := true,
                handlers := [{ alive := false, startFails := false, readyFails := false }],
                dhtStartFails := false, announcerStartFails := false,
                runtimeRunFails := true } = true ∧
    startupOk { dhtAlive := true, hasModuleBackends := true,
                handlers := [{ alive := false, startFails := true, readyFails := false }],
                dhtStartFails := false, announcerStartFails := false,
                runtimeRunFails := false } = false ∧
    ((Event.shutdownCall ∈
        (Server.run { dhtAlive := true, hasModuleBackends := true,
                      handlers := [{ alive := false, startFails := false, readyFails := false }],
                      dhtStartFails := false, announcerStartFails := false,
                      runtimeRunFails := true }).1 ∧
      (Server.run { dhtAlive := true, hasModuleBackends := true,
                    handlers := [{ alive := false, startFails := false, readyFails := false }],
                    dhtStartFails := false, announcerStartFails := false,
                    runtimeRunFails := true }).2 =
        (if ({ dhtAlive := true, hasModuleBackends := true,
               handlers := [{ alive := false, startFails := false, readyFails := false }],
               dhtStartFails := false, announcerStartFails := false,
               runtimeRunFails := true } : RunEnv).runtimeRunFails then some Err.engineFault
         else none)) ∧
      Event.shutdownCall ∉
        (Server.run { dhtAlive := true, hasModuleBackends := true,
                      handlers := [{ alive := false, startFails := true, readyFails := false }],
                      dhtStartFails := false, announcerStartFails := false,
                      runtimeRunFails := false }).1) :=
  ⟨by decide, by decide, run_shutdown_invocation _ _ (by decide) (by decide)⟩

/-- C1 counterexample: when step 1 of startup (starting the registry
client) raises, `run()` terminates by that exception and `shutdown()` is
never invoked, contradicting the claim that `shutdown()` runs on every
termination of `run()`. -/
theorem run_shutdown_invocation_counterexample :
    Server.run { dhtAlive := false, hasModuleBackends := false, handlers := [],
                 dhtStartFails := true, announcerStartFails := false,
                 runtimeRunFails := false } =
      ([Event.dhtRunInBackground], some Err.dhtStartError) ∧
    Event.shutdownCall ∉
      (Server.run { dhtAlive := false, hasModuleBackends := false, handlers := [],
                    dhtStartFails := true, announcerStartFails := false,
                    runtimeRunFails := false }).1 := by
  decide

/-- C2 (amended): `create` raises its configuration assertion exactly when
both or neither of the "count" and "explicit range" forms are supplied, and
every successful call designates a duplicate-free (hence non-overlapping)
range of block identifiers; the range may however be empty (cf. the
counterexample), since the code never checks non-emptiness. -/
theorem create_shard_spec_validation (nb : Option Int) (bi : Option (Int × Int)) :
    (createBlockIndices nb bi = Except.error Err.configurationError ↔ bi.isNone = nb.isNone) ∧
    ∀ l, createBlockIndices nb bi = Except.ok l → l.Nodup := by
  constructor
  · constructor
    · intro h
      by_contra hne
      unfold createBlockIndices at h
      rw [if_neg hne] at h
      rcases bi with _ | p
      · rcases nb with _ | n
        · exact hne rfl
        · simp at h
      · simp at h
    · intro h
      unfold createBlockIndices
      rw [if_pos h]
  · intro l hl
    unfold createBlockIndices at hl
    by_cases hcond : bi.isNone = nb.isNone
    · rw [if_pos hcond] at hl
      exact Except.noConfusion hl
    · rw [if_neg hcond] at hl
      rcases bi with _ | p
      · rcases nb with _ | n
        · exact Except.noConfusion hl
        · simp only [Except.ok.injEq] at hl
          rw [← hl]
          exact intRange_nodup 0 n
      · simp only [Except.ok.injEq] at hl
        rw [← hl]
        exact intRange_nodup p.1 p.2

/-- Witness for C2: the explicit range `0:3` is accepted and the designated
block identifiers are duplicate-free. -/
theorem create_shard_spec_validation_witness :
    createBlockIndices none (some (0, 3)) = Except.ok ([0, 1, 2] : List Int) ∧
    ([0, 1, 2] : List Int).Nodup := by
  have h : createBlockIndices none (some (0, 3)) = Except.ok ([0, 1, 2] : List Int) := by rfl
  exact ⟨h, (create_shard_spec_validation none (some (0, 3))).2 [0, 1, 2] h⟩

/-- C2 counterexample: `num_blocks = 0` passes validation and `create`
succeeds with an empty designated range, contradicting the claim that every
successful call designates a non-empty range. -/
theorem create_shard_spec_validation_counterexample :
    createBlockIndices (some 0) none = Except.ok ([] : List Int) := by rfl

/-- C3: a failed announcement attempt is non-fatal to the Announcer.  The
registry client's `put` returns a `Result` (spec-modelled interface of the
external `declare_active_modules` / registry client; the loop at source
lines 242-245 discards the returned value), so with a registry whose put
fails on every attempt the Announcer still performs one announcement
attempt per period and keeps running. -/
theorem announcer_put_failure_nonfatal (iters : List AnnIter)
    (h : ∀ it ∈ iters, it.stopSet = false ∧ it.putOk = false) :
    putAttempts (ModuleAnnouncerThread.run false iters).1 = iters.length + 1 ∧
    (ModuleAnnouncerThread.run false iters).2 = AnnOutcome.running := by
  have key : ∀ its : List AnnIter, (∀ it ∈ its, it.stopSet = false) →
      putAttempts (announcerLoop its).1 = its.length ∧
        (announcerLoop its).2 = AnnOutcome.running := by
    intro its
    induction its with
    | nil => intro _; exact ⟨rfl, rfl⟩
    | cons it rest ih =>
      intro hh
      have h1 : it.stopSet = false := (hh it (List.mem_cons_self it rest))
      have h2 := ih (fun j hj => hh j (List.mem_cons_of_mem _ hj))
      simp [announcerLoop, h1, declareActiveModules, putAttempts, h2.1, h2.2]
  have h' : ∀ it ∈ iters, it.stopSet = false := fun it hit => (h it hit).1
  obtain ⟨k1, k2⟩ := key iters h'
  unfold ModuleAnnouncerThread.run
  exact ⟨by simp [declareActiveModules, putAttempts, k1], k2⟩

/-- Witness for C3: three periods with a failing put - four attempts in
total (one initial plus one per period) and the Announcer still running. -/
theorem announcer_put_failure_nonfatal_witness :
    (∀ it ∈ ([{ stopSet := false, putOk := false }, { stopSet := false, putOk := false },
              { stopSet := false, putOk := false }] : List AnnIter),
        it.stopSet = false ∧ it.putOk = false) ∧
    (putAttempts
        (ModuleAnnouncerThread.run false
          [{ stopSet := false, putOk := false }, { stopSet := false, putOk := false },
           { stopSet := false, putOk := false }]).1 =
      ([{ stopSet := false, putOk := false }, { stopSet := false, putOk := false },
        { stopSet := false, putOk := false }] : List AnnIter).length + 1 ∧
      (ModuleAnnouncerThread.run false
          [{ stopSet := false, putOk := false }, { stopSet := false, putOk := false },
           { stopSet := false, putOk := false }]).2 = AnnOutcome.running) :=
  ⟨by decide, announcer_put_failure_nonfatal _ (by decide)⟩

/-- C4 (amended): the initial announcement is the Announcer thread's first
action - the thread body announces before its first period wait - but
`Thread.start()` does not execute any of it synchronously, so the
orchestrator may reach the handler-start step before any announcement has
occurred (cf. the counterexample schedule). -/
theorem announcer_initial_announcement_first (firstPutOk : Bool) (iters : List AnnIter) :
    ((ModuleAnnouncerThread.run firstPutOk iters).1).head? = some AEvent.putAttempt := rfl

/-- C4 counterexample: a legal schedule in which the orchestrator runs both
of its steps before the spawned announcer thread ever runs - the
handler-start step begins with zero announcements performed, contradicting
the claim that `dht_handler_thread.start()` performs one announcement
synchronously before returning. -/
theorem announcer_initial_announcement_first_counterexample :
    TEvent.handlerPhaseBegin ∈ sysRun [true, true] sysInit ∧
    TEvent.announce ∉ sysRun [true, true] sysInit := by
  decide

/-- C5 (amended): `shutdown()` has no per-step exception handling: its
result is the error of the first failing step, a failure in the
handler-termination loop prevents all later steps (announcer stop, registry
shutdown, engine shutdown) from executing, and only when every step
succeeds does the sequence run to the final engine shutdown. -/
theorem shutdown_first_failure_aborts (env : ShutdownEnv) :
    (Server.shutdown env).2 = firstShutdownErr env ∧
    (env.handlers.any (fun hh => hh.terminateFails || hh.joinFails) = true →
      Event.announcerStopSet ∉ (Server.shutdown env).1 ∧
      Event.dhtShutdown ∉ (Server.shutdown env).1 ∧
      Event.runtimeShutdown ∉ (Server.shutdown env).1) ∧
    (shutdownAllOk env = true →
      (Server.shutdown env).2 = none ∧ Event.runtimeShutdown ∈ (Server.shutdown env).1) := by
  have hsnd : (shutdownHandlersPhase env.handlers 0).2 = handlersFirstErr env.handlers :=
    shutdownHandlersPhase_snd env.handlers 0
  refine ⟨?_, ?_, ?_⟩
  · show (shutdownRest env).2 = firstShutdownErr env
    unfold shutdownRest
    rcases hfe : handlersFirstErr env.handlers with _ | err
    · rw [seqPhase_none (by rw [hsnd, hfe])]
      unfold firstShutdownErr
      rw [hfe]
      unfold shutdownTail
      split_ifs <;> rfl
    · rw [seqPhase_some (show (shutdownHandlersPhase env.handlers 0).2 = some err by
        rw [hsnd, hfe])]
      unfold firstShutdownErr
      rw [hfe]
  · intro hany
    have hne := handlersFirstErr_ne_none env.handlers hany
    rcases hfe : handlersFirstErr env.handlers with _ | err
    · exact absurd hfe hne
    · have hrw : shutdownRest env = ((shutdownHandlersPhase env.handlers 0).1, some err) := by
        unfold shutdownRest
        exact seqPhase_some (by rw [hsnd, hfe])
      refine ⟨?_, ?_, ?_⟩ <;> intro hmem <;>
        simp only [Server.shutdown, hrw, List.mem_cons] at hmem <;> rcases hmem with hm | hm
      · simp at hm
      · rcases mem_shutdownHandlersPhase env.handlers 0 _ hm with ⟨k, h'⟩ | ⟨k, h'⟩ <;>
          simp at h'
      · simp at hm
      · rcases mem_shutdownHandlersPhase env.handlers 0 _ hm with ⟨k, h'⟩ | ⟨k, h'⟩ <;>
          simp at h'
      · simp at hm
      · rcases mem_shutdownHandlersPhase env.handlers 0 _ hm with ⟨k, h'⟩ | ⟨k, h'⟩ <;>
          simp at h'
  · intro hok
    simp only [shutdownAllOk, Bool.and_eq_true, Bool.not_eq_true'] at hok
    obtain ⟨⟨⟨⟨hall, haj⟩, hds⟩, hdj⟩, hrs⟩ := hok
    have hfe : handlersFirstErr env.handlers = none :=
      (handlersFirstErr_eq_none_iff env.handlers).2 hall
    have htail : shutdownTail env =
        (announcerStopEvents env.hasModuleBackends ++
          [Event.dhtShutdown, Event.dhtJoin, Event.runtimeShutdown], none) := by
      unfold shutdownTail
      simp [haj, hds, hdj, hrs]
    have hrw : shutdownRest env = ((shutdownHandlersPhase env.handlers 0).1 ++
        (shutdownTail env).1, (shutdownTail env).2) := by
      unfold shutdownRest
      exact seqPhase_none (by rw [hsnd, hfe])
    constructor
    · show (shutdownRest env).2 = none
      rw [hrw, htail]
    · show Event.runtimeShutdown ∈ Event.readyClear :: (shutdownRest env).1
      rw [hrw, htail]
      simp

/-- Witness for C5: a failing handler join aborts the sequence, and an
all-good environment runs it to completion. -/
theorem shutdown_first_failure_aborts_witness :
    (([{ terminateFails := false, joinFails := true }] : List ShutdownHandler).any
        (fun hh => hh.terminateFails || hh.joinFails) = true) ∧
    shutdownAllOk { handlers := [{ terminateFails := false, joinFails := false }],
                    hasModuleBackends := true, announcerJoinFails := false,
                    dhtShutdownFails := false, dhtJoinFails := false,
                    runtimeShutdownFails := false } = true ∧
    (Event.announcerStopSet ∉
        (Server.shutdown { handlers := [{ terminateFails := false, joinFails := true }],
                           hasModuleBackends := true, announcerJoinFails := false,
                           dhtShutdownFails := false, dhtJoinFails := false,
                           runtimeShutdownFails := false }).1 ∧
      Event.dhtShutdown ∉
        (Server.shutdown { handlers := [{ terminateFails := false, joinFails := true }],
                           hasModuleBackends := true, announcerJoinFails := false,
                           dhtShutdownFails := false, dhtJoinFails := false,
                           runtimeShutdownFails := false }).1 ∧
      Event.runtimeShutdown ∉
        (Server.shutdown { handlers := [{ terminateFails := false, joinFails := true }],
                           hasModuleBackends := true, announcerJoinFails := false,
                           dhtShutdownFails := false, dhtJoinFails := false,
                           runtimeShutdownFails := false }).1) ∧
    ((Server.shutdown { handlers := [{ terminateFails := false, joinFails := false }],
                        hasModuleBackends := true, announcerJoinFails := false,
                        dhtShutdownFails := false, dhtJoinFails := false,
                        runtimeShutdownFails := false }).2 = none ∧
      Event.runtimeShutdown ∈
        (Server.shutdown { handlers := [{ terminateFails := false, joinFails := false }],
                           hasModuleBackends := true, announcerJoinFails := false,
                           dhtShutdownFails := false, dhtJoinFails := false,
                           runtimeShutdownFails := false }).1) :=
  ⟨by decide, by decide,
    (shutdown_first_failure_aborts _).2.1 (by decide),
    (shutdown_first_failure_aborts _).2.2 (by decide)⟩

/-- C5 counterexample: one handler whose `terminate()` raises - `shutdown`
stops right there: the announcer, the registry client and the engine are
never torn down, and the error is re-thrown mid-sequence rather than
aggregated after the sequence completes, contradicting the claim that the
remaining steps still execute. -/
theorem shutdown_first_failure_aborts_counterexample :
    Server.shutdown { handlers := [{ terminateFails := true, joinFails := false }],
                      hasModuleBackends := true, announcerJoinFails := false,
                      dhtShutdownFails := false, dhtJoinFails := false,
                      runtimeShutdownFails := false } =
      ([Event.readyClear, Event.handlerTerminate 0], some Err.handlerTerminateError) ∧
    Event.announcerStopSet ∉
      (Server.shutdown { handlers := [{ terminateFails := true, joinFails := false }],
                         hasModuleBackends := true, announcerJoinFails := false,
                         dhtShutdownFails := false, dhtJoinFails := false,
                         runtimeShutdownFails := false }).1 ∧
    Event.dhtShutdown ∉
      (Server.shutdown { handlers := [{ terminateFails := true, joinFails := false }],
                         hasModuleBackends := true, announcerJoinFails := false,
                         dhtShutdownFails := false, dhtJoinFails := false,
                         runtimeShutdownFails := false }).1 ∧
    Event.runtimeShutdown ∉
      (Server.shutdown { handlers := [{ terminateFails := true, joinFails := false }],
                         hasModuleBackends := true, announcerJoinFails := false,
                         dhtShutdownFails := false, dhtJoinFails := false,
                         runtimeShutdownFails := false }).1 := by
  decide

/-- C6: the node's readiness signal is the Runtime's readiness (source line
195), is false before anything runs, can become true only strictly after
every handler-readiness wait of the startup sequence (every
`handlerReadyWait` lies in a prefix after which readiness is still false),
and is cleared as the very first step of `shutdown()`, before any teardown
event. -/
theorem readiness_lifecycle :
    Server.ready [] = false ∧
    (∀ env : RunEnv, ∃ pre post, (Server.run env).1 = pre ++ post ∧
      Server.ready pre = false ∧ ∀ k, Event.handlerReadyWait k ∉ post) ∧
    ∀ senv : ShutdownEnv, ((Server.shutdown senv).1).head? = some Event.readyClear := by
  refine ⟨rfl, ?_, ?_⟩
  · intro env
    by_cases hok : startupOk env = true
    · refine ⟨(dhtPhase env).1 ++ ((announcerPhase env).1 ++ (connHandlersPhase env.handlers 0).1),
        (runtimePhase env.runtimeRunFails).1 ++ [Event.shutdownCall], ?_, ?_, ?_⟩
      · rw [run_trace_ok env hok]
        simp [List.append_assoc]
      · apply runtimeReadyAfter_eq_false
        intro hmem
        simp only [List.mem_append] at hmem
        rcases hmem with hm | hm | hm
        · have := mem_dhtPhase hm
          simp at this
        · have := mem_announcerPhase hm
          simp at this
        · exact setReady_not_mem_connHandlersPhase _ _ hm
      · intro k hmem
        simp only [List.mem_append, List.mem_singleton] at hmem
        rcases hmem with hm | hm
        · rcases mem_runtimePhase hm with h' | h' <;> simp at h'
        · simp at hm
    · have hbad : startupOk env = false := by
        cases hx : startupOk env
        · rfl
        · exact absurd hx hok
      refine ⟨(Server.run env).1, [], by simp, ?_, by simp⟩
      apply runtimeReadyAfter_eq_false
      intro hmem
      rcases run_trace_bad_mem env hbad _ hmem with h' | h' | ⟨k, h'⟩ | ⟨k, h'⟩ <;> simp at h'
  · intro senv
    rfl

/-- Witness for C6: the decomposition applied to a concrete environment,
and the shutdown head event at a concrete environment. -/
theorem readiness_lifecycle_witness :
    Server.ready [] = false ∧
    ((Server.shutdown { handlers := [{ terminateFails := false, joinFails := false }],
                        hasModuleBackends := true, announcerJoinFails := false,
                        dhtShutdownFails := false, dhtJoinFails := false,
                        runtimeShutdownFails := false }).1).head? = some Event.readyClear :=
  ⟨readiness_lifecycle.1,
    readiness_lifecycle.2.2 { handlers := [{ terminateFails := false, joinFails := false }],
                              hasModuleBackends := true, announcerJoinFails := false,
                              dhtShutdownFails := false, dhtJoinFails := false,
                              runtimeShutdownFails := false }⟩

/-- C7 (amended): the registry client is constructed with `start=True`
(source line 112) and so is already running when `create` returns, whatever
the `start` flag; the handler pool, the execution engine and the announcer
thread are constructed unstarted only when the `start` flag is false - when
it is true, `__init__`'s `run_in_background(await_ready=True)` (lines
51-52, 181) blocks until engine readiness, which `run()` reaches only after
starting every handler (lines 73-76) and, for a non-empty hosted-block set,
the announcer (lines 67-68), so those components are already running when
`create` returns; the server thread itself is started iff the `start` flag
is set. -/
theorem create_construct_start_state (nb : Option Int) (bi : Option (Int × Int))
    (nh : Option Nat) (start : Bool) (r : CreateResult)
    (h : Server.create nb bi nh start = Except.ok r) :
    r.dhtStarted = true ∧ r.handlersStarted = start ∧ r.runtimeStarted = start ∧
      r.announcerStarted = (start && !r.hostedBlocks.isEmpty) ∧ r.serverStarted = start := by
  unfold Server.create at h
  rcases hc : createBlockIndices nb bi with e | blocks
  · rw [hc] at h
    simp at h
  · rw [hc] at h
    simp only [Except.ok.injEq] at h
    rw [← h]
    exact ⟨rfl, rfl, rfl, rfl, rfl⟩

/-- Witness for C7: a concrete successful `create` call with `start=true` -
on return the registry client, the handlers, the engine and the announcer
are all running. -/
theorem create_construct_start_state_witness :
    Server.create none (some (3, 5)) (some 2) true =
      Except.ok { hostedBlocks := [3, 4], dhtStarted := true, numHandlers := 2,
                  handlersStarted := true, runtimeStarted := true,
                  announcerStarted := true, serverStarted := true } ∧
    (({ hostedBlocks := [3, 4], dhtStarted := true, numHandlers := 2,
        handlersStarted := true, runtimeStarted := true,
        announcerStarted := true, serverStarted := true } : CreateResult).dhtStarted = true ∧
      ({ hostedBlocks := [3, 4], dhtStarted := true, numHandlers := 2,
         handlersStarted := true, runtimeStarted := true,
         announcerStarted := true, serverStarted := true } : CreateResult).handlersStarted =
        true ∧
      ({ hostedBlocks := [3, 4], dhtStarted := true, numHandlers := 2,
         handlersStarted := true, runtimeStarted := true,
         announcerStarted := true, serverStarted := true } : CreateResult).runtimeStarted =
        true ∧
      ({ hostedBlocks := [3, 4], dhtStarted := true, numHandlers := 2,
         handlersStarted := true, runtimeStarted := true,
         announcerStarted := true, serverStarted := true } : CreateResult).announcerStarted =
        (true && !({ hostedBlocks := [3, 4], dhtStarted := true, numHandlers := 2,
                     handlersStarted := true, runtimeStarted := true,
                     announcerStarted := true,
                     serverStarted := true } : CreateResult).hostedBlocks.isEmpty) ∧
      ({ hostedBlocks := [3, 4], dhtStarted := true, numHandlers := 2,
         handlersStarted := true, runtimeStarted := true,
         announcerStarted := true, serverStarted := true } : CreateResult).serverStarted =
        true) := by
  have h : Server.create none (some (3, 5)) (some 2) true =
      Except.ok { hostedBlocks := [3, 4], dhtStarted := true, numHandlers := 2,
                  handlersStarted := true, runtimeStarted := true,
                  announcerStarted := true, serverStarted := true } := by rfl
  exact ⟨h, create_construct_start_state none (some (3, 5)) (some 2) true _ h⟩

/-- C7 counterexample: a successful `create` with `start=False` still leaves
the registry client started (`DHT(..., start=True)`, source line 112),
contradicting the claim that none of the constructed components has been
started when `create` returns. -/
theorem create_construct_start_state_counterexample :
    Server.create none (some (0, 2)) none false =
      Except.ok { hostedBlocks := [0, 1], dhtStarted := true, numHandlers := 8,
                  handlersStarted := false, runtimeStarted := false,
                  announcerStarted := false, serverStarted := false } := by rfl

/-- C8: when `expiration` is omitted, the computed default equals
`max(2 * update_period, MAX_DHT_TIME_DISCREPANCY_SECONDS)` (source lines
234-235) and is therefore at least `2 * update_period` and at least the
maximum clock discrepancy. -/
theorem announcer_default_expiration (update_period maxTimeDiscrepancy : ℚ)
    (_h : 0 < update_period) :
    ModuleAnnouncerThread.expiration update_period none maxTimeDiscrepancy =
      max (2 * update_period) maxTimeDiscrepancy ∧
    2 * update_period ≤ ModuleAnnouncerThread.expiration update_period none maxTimeDiscrepancy ∧
    maxTimeDiscrepancy ≤ ModuleAnnouncerThread.expiration update_period none maxTimeDiscrepancy :=
  ⟨rfl, le_max_left _ _, le_max_right _ _⟩

/-- Witness for C8: the source defaults, `update_period = 30` and a maximum
clock discrepancy of `3`. -/
theorem announcer_default_expiration_witness :
    (0 : ℚ) < 30 ∧
    (ModuleAnnouncerThread.expiration 30 none 3 = max (2 * 30) 3 ∧
      2 * 30 ≤ ModuleAnnouncerThread.expiration 30 none 3 ∧
      (3 : ℚ) ≤ ModuleAnnouncerThread.expiration 30 none 3) :=
  ⟨by norm_num, announcer_default_expiration 30 3 (by norm_num)⟩

/-- C9: `start(awaitReady=true, timeout)` performs exactly the same node
launch whether or not readiness fires within the timeout - the trace is
`threadStart` then the readiness wait in both cases, so the timeout does not
abort the node - and raises `TimeoutError` exactly when readiness does not
fire within the timeout. -/
theorem run_in_background_timeout (readyWithinTimeout : Bool) :
    (Server.runInBackground true readyWithinTimeout).1 =
      [BEvent.threadStart, BEvent.readyWait] ∧
    ((Server.runInBackground true readyWithinTimeout).2 = none ↔ readyWithinTimeout = true) ∧
    ((Server.runInBackground true readyWithinTimeout).2 = some Err.timeoutError ↔
      readyWithinTimeout = false) := by
  cases readyWithinTimeout <;> simp [Server.runInBackground]

/-- C10: the startup loop starts a handler only when it is not already
alive (an alive handler's slot contributes no `handlerStart` event), and
the readiness futures are awaited in slot order either way: the awaited slot
indices are exactly `0, 1, 2, ...` up to the first failing slot. -/
theorem handler_start_guarded_by_liveness (hs : List RunHandler) (j : Nat) (hh : RunHandler)
    (hj : hs[j]? = some hh) (hal : hh.alive = true) :
    Event.handlerStart j ∉ (connHandlersPhase hs 0).1 ∧
    readyWaitIndices (connHandlersPhase hs 0).1 = List.range' 0 (readyWaitCount hs) := by
  constructor
  · intro hmem
    rcases mem_connHandlersPhase_strong hs 0 _ hmem with ⟨j', hh', hj', hal', hval⟩ | ⟨j', _, hval⟩
    · injection hval with h2
      have hjj : j' = j := by omega
      rw [hjj, hj] at hj'
      injection hj' with h3
      rw [← h3, hal] at hal'
      exact Bool.noConfusion hal'
    · simp at hval
  · exact readyWaitIndices_connHandlersPhase hs 0

/-- Witness for C10: a single already-alive handler is never started and
its readiness future is still awaited. -/
theorem handler_start_guarded_by_liveness_witness :
    ([{ alive := true, startFails := false, readyFails := false }] : List RunHandler)[0]? =
      some { alive := true, startFails := false, readyFails := false } ∧
    ({ alive := true, startFails := false, readyFails := false } : RunHandler).alive = true ∧
    (Event.handlerStart 0 ∉
        (connHandlersPhase [{ alive := true, startFails := false, readyFails := false }] 0).1 ∧
      readyWaitIndices
          (connHandlersPhase [{ alive := true, startFails := false, readyFails := false }] 0).1 =
        List.range' 0
          (readyWaitCount [{ alive := true, startFails := false, readyFails := false }])) :=
  ⟨rfl, rfl, handler_start_guarded_by_liveness _ 0 _ rfl rfl⟩

end PetalsServer
